import Mathlib

/-! Verification development for the Medical-Chatbot repository's multi-tenant
document ingestion and retrieval pipeline.

Shallow embedding of the core functions of:
- `src/src/embeddings.py` (embedding dimension lookup),
- `backend/app/core/vector_store.py` (`PineconeManager.create_index`),
- `backend/app/services/document_service.py` (`process_document`),
- `backend/app/api/routes/documents.py` (`retry_document_processing`),
- `backend/app/services/chatbot_service.py` (namespace resolution),
- `backend/app/core/query_engine.py` (`QueryEngine.query`).

Effectful steps (database reads, GridFS downloads, network calls to the
embedding / vector-store / generation providers) are modelled as explicit
environment parameters carrying each step's outcome; a raised exception is an
`Except.error` carrying the exception's message. -/

set_option maxRecDepth 4000

/-- Ceiling division on naturals: for `b > 0`, `ceil_div a b` is the least `n`
with `a ≤ n * b`. -/
def ceil_div (a b : Nat) : Nat := (a + b - 1) / b

/-- Modelled from the spec: the repository delegates text chunking to
langchain's `RecursiveCharacterTextSplitter` (configured in
`src/src/data_loader.py` `split_documents` and in
`backend/app/services/document_service.py` `process_document`), whose
implementation is not part of this repository's sources. Per the spec (§4.1),
splitting is deterministic and greedy: contiguous windows of `csize`
characters starting at positions spaced `csize - overlap` apart, with a final
remainder of at most `csize` characters emitted as the last chunk (so no
degenerate trailing chunk shorter than the overlap is ever emitted on its
own). `fuel` bounds the recursion depth; `s.length` is always sufficient fuel
when `overlap < csize`. -/
def split_text_go (fuel : Nat) (s : List Char) (csize overlap : Nat) : List (List Char) :=
  match fuel with
  | 0 => []
  | fuel' + 1 =>
    if s.length ≤ csize then [s]
    else s.take csize :: split_text_go fuel' (s.drop (csize - overlap)) csize overlap

/-- Modelled from the spec: greedy window chunker; empty input yields no
chunks. -/
def split_text (s : List Char) (csize overlap : Nat) : List (List Char) :=
  if s.length = 0 then [] else split_text_go s.length s csize overlap

theorem ceil_div_add_self (x b : Nat) (hb : 0 < b) :
    ceil_div (x + b) b = ceil_div x b + 1 := by
  unfold ceil_div
  have h1 : x + b + b - 1 = (x + b - 1) + b := by omega
  rw [h1, Nat.add_div_right _ hb]

theorem ceil_div_eq_one (x b : Nat) (hx : 0 < x) (hxb : x ≤ b) :
    ceil_div x b = 1 := by
  unfold ceil_div
  have hb : 0 < b := lt_of_lt_of_le hx hxb
  have hlo : 1 * b ≤ x + b - 1 := by omega
  have hhi : x + b - 1 < (1 + 1) * b := by omega
  exact Nat.div_eq_of_lt_le hlo hhi

theorem split_text_go_length (csize overlap : Nat) (hO : overlap < csize) :
    ∀ (fuel : Nat) (s : List Char), s.length ≠ 0 → s.length ≤ fuel →
      (split_text_go fuel s csize overlap).length =
        if s.length ≤ overlap then 1
        else ceil_div (s.length - overlap) (csize - overlap) := by
  intro fuel
  induction fuel with
  | zero => intro s hs hle; omega
  | succ fuel' ih =>
    intro s hs hle
    by_cases hC : s.length ≤ csize
    · simp only [split_text_go, if_pos hC, List.length_singleton]
      by_cases hOv : s.length ≤ overlap
      · rw [if_pos hOv]
      · rw [if_neg hOv]
        exact (ceil_div_eq_one (s.length - overlap) (csize - overlap)
          (by omega) (by omega)).symm
    · simp only [split_text_go, if_neg hC, List.length_cons]
      have hdrop : (s.drop (csize - overlap)).length = s.length - (csize - overlap) := by
        simp [List.length_drop]
      have hne : (s.drop (csize - overlap)).length ≠ 0 := by omega
      have hfl : (s.drop (csize - overlap)).length ≤ fuel' := by omega
      rw [ih (s.drop (csize - overlap)) hne hfl, hdrop]
      have hgt : ¬ (s.length - (csize - overlap) ≤ overlap) := by omega
      rw [if_neg hgt, if_neg (by omega : ¬ s.length ≤ overlap)]
      have hsplit : s.length - overlap = (s.length - (csize - overlap) - overlap) + (csize - overlap) := by
        omega
      rw [hsplit, ceil_div_add_self _ _ (by omega)]

/-- C2: for every text of length L chunked with chunk size C and overlap O
where O < C, the number of chunks produced by the chunker equals
ceil((L-O)/(C-O)) when L > O, equals 1 when 0 < L <= O, and equals 0 when the
text is empty. -/
theorem C2_chunk_count (s : List Char) (csize overlap : Nat) (hO : overlap < csize) :
    (split_text s csize overlap).length =
      if s.length = 0 then 0
      else if s.length ≤ overlap then 1
      else ceil_div (s.length - overlap) (csize - overlap) := by
  unfold split_text
  by_cases h0 : s.length = 0
  · simp [h0]
  · rw [if_neg h0, if_neg h0]
    exact split_text_go_length csize overlap hO s.length s h0 (le_refl _)

/-- Witness for C2: a 12-character text with chunk size 5 and overlap 2
yields ceil((12-2)/(5-2)) = 4 chunks. -/
theorem C2_chunk_count_witness :
    2 < 5 ∧
    (split_text (List.replicate 12 'a') 5 2).length =
      (if (List.replicate 12 'a').length = 0 then 0
       else if (List.replicate 12 'a').length ≤ 2 then 1
       else ceil_div ((List.replicate 12 'a').length - 2) (5 - 2)) :=
  ⟨by decide, C2_chunk_count (List.replicate 12 'a') 5 2 (by decide)⟩

/-- The known-model dimension table of `src/src/embeddings.py`
(`dimension_map` inside `get_embedding_dimension`). -/
def dimension_map : List (String × Nat) :=
  [("sentence-transformers/all-MiniLM-L6-v2", 384),
   ("sentence-transformers/all-mpnet-base-v2", 768),
   ("sentence-transformers/paraphrase-multilingual-MiniLM-L12-v2", 384)]

/-- `src/src/embeddings.py` `get_embedding_dimension`: `dict.get` with default
384 ("Default to 384"). -/
def get_embedding_dimension (model_name : String) : Nat :=
  (dimension_map.lookup model_name).getD 384

/-- C3 counterexample: "some-unknown-model" is not present in the known-model
lookup table, yet `get_embedding_dimension` returns the default dimension 384
instead of failing with a ConfigurationError. -/
theorem C3_counterexample :
    dimension_map.lookup "some-unknown-model" = none ∧
    get_embedding_dimension "some-unknown-model" = 384 := by
  exact ⟨by decide, by decide⟩

/-- C3 amended: for every identifier recorded in the table the lookup returns
that identifier's recorded dimension; for every identifier not in the table it
returns the default dimension 384 rather than failing. -/
theorem C3_dimension_lookup (m : String) :
    (∀ d, dimension_map.lookup m = some d → get_embedding_dimension m = d) ∧
    (dimension_map.lookup m = none → get_embedding_dimension m = 384) := by
  constructor
  · intro d h
    simp [get_embedding_dimension, h]
  · intro h
    simp [get_embedding_dimension, h]

/-- Witness for C3: the table records 768 for all-mpnet-base-v2 and the lookup
returns it. -/
theorem C3_dimension_lookup_witness :
    get_embedding_dimension "sentence-transformers/all-mpnet-base-v2" = 768 :=
  (C3_dimension_lookup "sentence-transformers/all-mpnet-base-v2").1 768 (by decide)

/-- One index in the Pinecone control plane, as visible to
`backend/app/core/vector_store.py`. -/
structure PineconeIndexInfo where
  name : String
  dimension : Nat
  metric : String
deriving Repr, DecidableEq

/-- `backend/app/core/vector_store.py` `PineconeManager.create_index`: lists
the existing indexes; creates the index only when its name is absent;
otherwise leaves the control plane unchanged. The dimension of an existing
index is never examined. -/
def create_index (st : List PineconeIndexInfo) (index_name : String)
    (dimension : Nat) (metric : String) : List PineconeIndexInfo :=
  if index_name ∈ st.map PineconeIndexInfo.name then st
  else st ++ [{ name := index_name, dimension := dimension, metric := metric }]

/-- C4 counterexample: an index named "medical-chatbot" with dimension 768
already exists; `create_index` requesting dimension 384 silently no-ops and
returns the unchanged control plane instead of failing with a
DimensionMismatchError. -/
theorem C4_counterexample :
    create_index [{ name := "medical-chatbot", dimension := 768, metric := "cosine" }]
        "medical-chatbot" 384 "cosine"
      = [{ name := "medical-chatbot", dimension := 768, metric := "cosine" }] := by
  decide

/-- C4 amended: `create_index` creates the index when absent and no-ops when
an index with the same name exists, regardless of that index's dimension (no
dimension comparison is performed and no error is ever raised); it is
idempotent even across calls with different dimensions. -/
theorem C4_create_index (st : List PineconeIndexInfo) (nm : String)
    (d d2 : Nat) (m m2 : String) :
    (nm ∉ st.map PineconeIndexInfo.name →
      create_index st nm d m = st ++ [{ name := nm, dimension := d, metric := m }]) ∧
    (nm ∈ st.map PineconeIndexInfo.name → create_index st nm d m = st) ∧
    create_index (create_index st nm d m) nm d2 m2 = create_index st nm d m := by
  refine ⟨fun h => by simp [create_index, h], fun h => by simp [create_index, h], ?_⟩
  by_cases h : nm ∈ st.map PineconeIndexInfo.name
  · simp [create_index, h]
  · simp [create_index, h]

/-- Witness for C4: on an empty control plane the index is created, and a
second call with a different dimension no-ops. -/
theorem C4_create_index_witness :
    create_index [] "medical-chatbot" 384 "cosine"
        = [{ name := "medical-chatbot", dimension := 384, metric := "cosine" }] ∧
    create_index (create_index [] "medical-chatbot" 384 "cosine") "medical-chatbot" 768 "euclidean"
        = create_index [] "medical-chatbot" 384 "cosine" :=
  ⟨(C4_create_index [] "medical-chatbot" 384 768 "cosine" "euclidean").1 (by decide),
   (C4_create_index [] "medical-chatbot" 384 768 "cosine" "euclidean").2.2⟩

/-- Per-vector metadata attached to a chunk (the dict-shaped
`chunk.metadata` of the Python code); absent keys are `none`. -/
structure ChunkMeta where
  source : Option String
  document_id : Option String
  user_id : Option String
  filename : Option String
  file_type : Option String
deriving Repr, DecidableEq

/-- A langchain Document produced by the splitter: text plus metadata. -/
structure Chunk where
  page_content : String
  metadata : ChunkMeta
deriving Repr, DecidableEq

/-- The fields of one record of the `documents` collection read or written by
the ingestion pipeline and the retry route. -/
structure DocumentRecord where
  gridfs_id : String
  file_type : String
  original_filename : String
  processed : Bool
  processing_status : String
  processing_error : Option String
  chunk_count : Nat
  vector_store_id : Option String
  is_active : Bool
deriving Repr, DecidableEq

/-- `backend/app/config.py` `Settings.chunk_size` default. -/
def settings_chunk_size : Nat := 500

/-- `backend/app/config.py` `Settings.chunk_overlap` default. -/
def settings_chunk_overlap : Nat := 20

/-- File types with an extractor in
`backend/app/services/document_service.py` `process_document` (pdf / docx /
doc / xlsx / xls / txt); any other declared type raises
"Unsupported file type". -/
def supported_file_types : List String := ["pdf", "docx", "doc", "xlsx", "xls", "txt"]

/-- Environment of one `process_document` run: the outcome of each effectful
step (the `find_one` read, the GridFS download, the loader's text extraction,
and the vector-store upsert). An `Except.error` is a raised exception carrying
`str(e)`. -/
structure IngestEnv where
  document : Option DocumentRecord
  download : Except String (List Char)
  extract : List Char → Except String (List Char)
  upsert : String → List Chunk → Except String (List String)

/-- Observable outcome of one `process_document` run: the returned Bool (the
function returns normally in every case — exceptions are caught at the
pipeline boundary), the final state of the document record (`none` when the
record does not exist), and the upsert calls made against the vector store as
(namespace, chunks) pairs. -/
structure IngestResult where
  returned : Bool
  record : Option DocumentRecord
  upserts : List (String × List Chunk)
deriving Repr, DecidableEq

/-- The first `update_one` of `process_document`: status set to "processing",
prior error cleared. Its two fields are overwritten again on every exit path,
so the final record composes the two updates. -/
def mark_processing (d : DocumentRecord) : DocumentRecord :=
  { d with processing_status := "processing", processing_error := none }

/-- The `except` branch of `process_document`: status "failed", the raised
message recorded verbatim. -/
def fail_update (d : DocumentRecord) (e : String) : DocumentRecord :=
  { d with processing_status := "failed", processing_error := some e }

/-- Chunks produced inside `process_document`: the split pieces of the
extracted text, each with document id, user id, original filename and file
type written into its metadata. -/
def chunks_of (document_id user_id : String) (doc : DocumentRecord)
    (text : List Char) : List Chunk :=
  (split_text text settings_chunk_size settings_chunk_overlap).map (fun p =>
    { page_content := String.mk p,
      metadata := { source := none, document_id := some document_id,
                    user_id := some user_id,
                    filename := some doc.original_filename,
                    file_type := some doc.file_type } })

/-- `backend/app/services/document_service.py` `process_document`. The
temporary-file bookkeeping of the `finally` block is not observable and is
omitted. When the record is missing, the raised ValueError is caught and the
failure update matches no record. -/
def process_document (document_id user_id : String) (env : IngestEnv) : IngestResult :=
  match env.document with
  | none => { returned := false, record := none, upserts := [] }
  | some doc =>
    match env.download with
    | Except.error e =>
      { returned := false, record := some (fail_update (mark_processing doc) e),
        upserts := [] }
    | Except.ok content =>
      if doc.file_type ∈ supported_file_types then
        match env.extract content with
        | Except.error e =>
          { returned := false, record := some (fail_update (mark_processing doc) e),
            upserts := [] }
        | Except.ok text =>
          match env.upsert ("user_" ++ user_id) (chunks_of document_id user_id doc text) with
          | Except.error e =>
            { returned := false,
              record := some (fail_update (mark_processing doc) e),
              upserts := [("user_" ++ user_id, chunks_of document_id user_id doc text)] }
          | Except.ok _ =>
            { returned := true,
              record := some { mark_processing doc with
                                 processed := true,
                                 processing_status := "completed",
                                 chunk_count := (chunks_of document_id user_id doc text).length,
                                 vector_store_id := some ("user_" ++ user_id),
                                 processing_error := none },
              upserts := [("user_" ++ user_id, chunks_of document_id user_id doc text)] }
      else
        { returned := false,
          record := some (fail_update (mark_processing doc)
            ("Unsupported file type: " ++ doc.file_type)),
          upserts := [] }

theorem user_prefix_ne_empty (uid : String) : "user_" ++ uid ≠ "" := by
  intro h
  have hl := congrArg String.length h
  rw [String.length_append] at hl
  have h5 : ("user_" : String).length = 5 := by decide
  have h0 : ("" : String).length = 0 := by decide
  omega

/-- C1: every vector-store upsert performed by an ingestion run targets
exactly the uploading tenant's private namespace "user_" ++ user_id, and never
the shared default namespace (the empty string). -/
theorem C1_upsert_namespace (document_id user_id : String) (env : IngestEnv)
    (p : String × List Chunk)
    (hp : p ∈ (process_document document_id user_id env).upserts) :
    p.1 = "user_" ++ user_id ∧ p.1 ≠ "" := by
  unfold process_document at hp
  split at hp
  · simp at hp
  · split at hp
    · simp at hp
    · split at hp
      · split at hp
        · simp at hp
        · split at hp
          · simp at hp
            rw [hp]
            exact ⟨rfl, user_prefix_ne_empty user_id⟩
          · simp at hp
            rw [hp]
            exact ⟨rfl, user_prefix_ne_empty user_id⟩
      · simp at hp

/-- A sample stored document record for concrete runs. -/
def sample_doc : DocumentRecord :=
  { gridfs_id := "g1", file_type := "txt", original_filename := "a.txt",
    processed := false, processing_status := "pending", processing_error := none,
    chunk_count := 0, vector_store_id := none, is_active := true }

/-- A sample environment in which every step succeeds. -/
def sample_env : IngestEnv :=
  { document := some sample_doc,
    download := Except.ok ['h', 'i'],
    extract := fun c => Except.ok c,
    upsert := fun _ _ => Except.ok ["id0"] }

/-- The single chunk produced from the two-character text of `sample_env`. -/
def sample_chunk : Chunk :=
  { page_content := "hi",
    metadata := { source := none, document_id := some "d1", user_id := some "t1",
                  filename := some "a.txt", file_type := some "txt" } }

/-- Witness for C1: the successful sample run upserts into namespace
"user_t1". -/
theorem C1_upsert_namespace_witness :
    (("user_t1", [sample_chunk]) : String × List Chunk).1 = "user_" ++ "t1" ∧
    (("user_t1", [sample_chunk]) : String × List Chunk).1 ≠ "" :=
  C1_upsert_namespace "d1" "t1" sample_env ("user_t1", [sample_chunk]) (by decide)

/-- A 300-character exception message. -/
def long_error_msg : String := String.mk (List.replicate 300 'x')

/-- An environment whose GridFS download raises the 300-character message. -/
def sample_env_err : IngestEnv :=
  { document := some sample_doc,
    download := Except.error long_error_msg,
    extract := fun c => Except.ok c,
    upsert := fun _ _ => Except.ok [] }

/-- C5 counterexample: a run whose download step raises a 300-character
exception records the full 300-character message verbatim as
processing_error — no truncation of the recorded message takes place
anywhere in the pipeline (the claim says a truncated message is recorded).
The failure is still caught: status is "failed" and the run returns normally
with False. -/
theorem C5_counterexample :
    ((process_document "d1" "t1" sample_env_err).record.bind
        DocumentRecord.processing_error) = some long_error_msg ∧
    long_error_msg.length = 300 ∧
    (process_document "d1" "t1" sample_env_err).returned = false ∧
    ((process_document "d1" "t1" sample_env_err).record.map
        DocumentRecord.processing_status) = some "failed" := by
  refine ⟨rfl, by simp [long_error_msg, String.length], rfl, rfl⟩

/-- C5 amended: every exception raised inside an ingestion run (download,
unsupported file type, extraction, or upsert) is caught at the pipeline
boundary: `process_document` returns normally with False, sets the document's
processing_status to "failed", and records the raised message in full (it is
not truncated). -/
theorem C5_failures_caught (document_id user_id e : String) (env : IngestEnv)
    (doc : DocumentRecord) (hdoc : env.document = some doc) :
    (env.download = Except.error e →
      process_document document_id user_id env =
        { returned := false, record := some (fail_update (mark_processing doc) e),
          upserts := [] }) ∧
    (∀ content, env.download = Except.ok content →
      doc.file_type ∉ supported_file_types →
      process_document document_id user_id env =
        { returned := false,
          record := some (fail_update (mark_processing doc)
            ("Unsupported file type: " ++ doc.file_type)),
          upserts := [] }) ∧
    (∀ content, env.download = Except.ok content →
      doc.file_type ∈ supported_file_types →
      env.extract content = Except.error e →
      process_document document_id user_id env =
        { returned := false, record := some (fail_update (mark_processing doc) e),
          upserts := [] }) ∧
    (∀ content text, env.download = Except.ok content →
      doc.file_type ∈ supported_file_types →
      env.extract content = Except.ok text →
      env.upsert ("user_" ++ user_id) (chunks_of document_id user_id doc text)
          = Except.error e →
      process_document document_id user_id env =
        { returned := false, record := some (fail_update (mark_processing doc) e),
          upserts := [("user_" ++ user_id, chunks_of document_id user_id doc text)] }) := by
  refine ⟨?_, ?_, ?_, ?_⟩
  · intro hdl
    simp [process_document, hdoc, hdl]
  · intro content hdl hft
    simp [process_document, hdoc, hdl, hft]
  · intro content hdl hft hex
    simp [process_document, hdoc, hdl, hft, hex]
  · intro content text hdl hft hex hup
    simp [process_document, hdoc, hdl, hft, hex, hup]

/-- An environment whose download raises a short message. -/
def sample_env_err2 : IngestEnv :=
  { document := some sample_doc,
    download := Except.error "boom",
    extract := fun c => Except.ok c,
    upsert := fun _ _ => Except.ok [] }

/-- Witness for C5: a concrete run whose download raises "boom" ends failed
with that message recorded and returns False. -/
theorem C5_failures_caught_witness :
    process_document "d1" "t1" sample_env_err2 =
      { returned := false,
        record := some (fail_update (mark_processing sample_doc) "boom"),
        upserts := [] } :=
  (C5_failures_caught "d1" "t1" "boom" sample_env_err2 sample_doc rfl).1 rfl

/-- Outcome of the retry route: either a raised HTTPException (status code and
detail) or the success payload's message. -/
inductive RouteResponse where
  | http_error (status_code : Nat) (detail : String)
  | ok (message : String)
deriving Repr, DecidableEq

/-- Observable outcome of `retry_document_processing`: the HTTP-level
response, the arguments passed to `process_document` when it was invoked
((document_id, gridfs_id, user_id), `none` when it was not), and that run's
result. -/
structure RetryResult where
  response : RouteResponse
  ingest_call : Option (String × String × String)
  ingest : Option IngestResult
deriving Repr, DecidableEq

/-- `backend/app/api/routes/documents.py` `retry_document_processing`.
`valid_id` is `ObjectId.is_valid(document_id)`; `found` is the `find_one`
result scoped to the current user. The route's 500 branch (an exception from
`process_document`) is unreachable in this model because `process_document`
catches every failure and returns a Bool. -/
def retry_document_processing (document_id user_id : String) (valid_id : Bool)
    (found : Option DocumentRecord) (env : IngestEnv) : RetryResult :=
  if valid_id = false then
    { response := RouteResponse.http_error 400 "Invalid document ID",
      ingest_call := none, ingest := none }
  else
    match found with
    | none =>
      { response := RouteResponse.http_error 404 "Document not found",
        ingest_call := none, ingest := none }
    | some doc =>
      if doc.processing_status ≠ "failed" then
        { response := RouteResponse.http_error 400
            ("Document is not in failed state. Current status: " ++ doc.processing_status),
          ingest_call := none, ingest := none }
      else
        { response := RouteResponse.ok "Document processing restarted",
          ingest_call := some (document_id, doc.gridfs_id, user_id),
          ingest := some (process_document document_id user_id env) }

/-- C6: retry on an existing document whose processing_status is not "failed"
raises the invalid-state HTTP 400 error and does not invoke reprocessing; on a
"failed" document it invokes `process_document` on the document's stored
GridFS file id — the original source content — re-entering processing. -/
theorem C6_retry_state_check (document_id user_id : String)
    (found : Option DocumentRecord) (env : IngestEnv) (doc : DocumentRecord)
    (hfound : found = some doc) :
    (doc.processing_status ≠ "failed" →
      retry_document_processing document_id user_id true found env =
        { response := RouteResponse.http_error 400
            ("Document is not in failed state. Current status: " ++ doc.processing_status),
          ingest_call := none, ingest := none }) ∧
    (doc.processing_status = "failed" →
      retry_document_processing document_id user_id true found env =
        { response := RouteResponse.ok "Document processing restarted",
          ingest_call := some (document_id, doc.gridfs_id, user_id),
          ingest := some (process_document document_id user_id env) }) := by
  constructor
  · intro h
    simp [retry_document_processing, hfound, h]
  · intro h
    simp [retry_document_processing, hfound, h]

/-- A sample record in the "completed" state. -/
def sample_doc_completed : DocumentRecord :=
  { sample_doc with processing_status := "completed" }

/-- Witness for C6: retry on a completed document yields the invalid-state
400 error and no reprocessing. -/
theorem C6_retry_state_check_witness :
    retry_document_processing "d1" "t1" true (some sample_doc_completed) sample_env =
      { response := RouteResponse.http_error 400
          ("Document is not in failed state. Current status: " ++ "completed"),
        ingest_call := none, ingest := none } :=
  (C6_retry_state_check "d1" "t1" (some sample_doc_completed) sample_env
    sample_doc_completed rfl).1 (by decide)

/-- `backend/app/services/chatbot_service.py` `ChatbotService.query`, lines
124-132: the namespace used for retrieval. The Python guard `if user_id:`
treats both `None` and the empty string as absent (truthiness); the shared
default namespace is the empty string. -/
def resolve_namespace (user_id : Option String) : String :=
  match user_id with
  | some uid => if uid = "" then "" else "user_" ++ uid
  | none => ""

/-- C7 counterexample: the empty string is a present (non-None) tenant id,
yet namespace resolution maps it to the shared default namespace "" rather
than to "user_" ++ "", because the Python truthiness check `if user_id:`
conflates the empty string with absence. -/
theorem C7_counterexample : resolve_namespace (some "") ≠ "user_" ++ "" := by
  decide

/-- C7 amended: namespace resolution is a pure total function of the caller
identity that consults no storage: every present nonempty tenant id t maps to
"user_" ++ t, and an absent identity — or the degenerate empty-string
identity, which Python truthiness treats as absent — maps to the fixed shared
default namespace "". -/
theorem C7_resolve_namespace (t : String) :
    (t ≠ "" → resolve_namespace (some t) = "user_" ++ t) ∧
    resolve_namespace none = "" ∧
    resolve_namespace (some "") = "" := by
  refine ⟨fun h => by simp [resolve_namespace, h], rfl, rfl⟩

/-- Witness for C7: tenant id "t1" resolves to "user_t1". -/
theorem C7_resolve_namespace_witness : resolve_namespace (some "t1") = "user_" ++ "t1" :=
  (C7_resolve_namespace "t1").1 (by decide)

/-- The retriever's docs: exceptions during retrieval are caught inside
`retrieve_context` and yield the empty list. -/
def docs_of (retrieved : Except String (List Chunk)) : List Chunk :=
  match retrieved with
  | Except.ok ds => ds
  | Except.error _ => []

/-- `backend/app/core/query_engine.py` `QueryEngine.retrieve_context`: on no
docs returns ([], ""); otherwise the docs plus their contents joined by blank
lines, in retrieval order. -/
def retrieve_context (retrieved : Except String (List Chunk)) : List Chunk × String :=
  if docs_of retrieved = [] then ([], "")
  else (docs_of retrieved,
        String.intercalate "\n\n" ((docs_of retrieved).map Chunk.page_content))

/-- `backend/app/core/query_engine.py` `QueryEngine.create_prompt`: the fixed
template around the context block and the verbatim question. -/
def create_prompt (question context : String) : String :=
  "You are a medical assistant for question-answering tasks.\n" ++
  "Use the following pieces of retrieved context to answer the question.\n" ++
  "If you don\x27t know the answer, say that you don\x27t know.\n" ++
  "Use three sentences maximum and keep the answer concise.\n\n" ++
  "Context:\n" ++ context ++ "\n\nQuestion: " ++ question ++ "\n\nAnswer:"

/-- The value returned by `QueryEngine.query`: a bare answer string when
sources are not requested, otherwise the dict with keys answer, sources and
context_docs. -/
inductive QueryReturn where
  | bare (answer : String)
  | with_sources (answer : String) (sources : List String) (context_docs : List Chunk)
deriving Repr, DecidableEq

/-- A query run's observable outcome: the returned value plus the prompts
sent to the generation provider, in order. -/
structure QueryTrace where
  result : QueryReturn
  prompts : List String
deriving Repr, DecidableEq

/-- `backend/app/core/query_engine.py` `QueryEngine.query`, with the
generation provider as the oracle `gen` and the retriever's outcome as
`retrieved` (the retriever was built with `k` baked in, so `top_k` is not
consulted again here, as in the source). -/
def QueryEngine.query (gen : String → String)
    (retrieved : Except String (List Chunk)) (question : String)
    (return_sources : Bool) : QueryTrace :=
  let dc := retrieve_context retrieved
  let prompt := create_prompt question dc.2
  let answer := gen prompt
  if return_sources then
    { result := QueryReturn.with_sources answer
        (dc.1.map (fun d => d.metadata.source.getD "Unknown")) dc.1,
      prompts := [prompt] }
  else
    { result := QueryReturn.bare answer, prompts := [prompt] }

/-- C8: when retrieval returns zero chunks (an empty namespace or a caught
retrieval failure), the query engine neither fails nor short-circuits: it
builds the prompt with an empty context block, invokes the generation
provider exactly once, and returns the generated answer — with zero sources
when sources are requested. -/
theorem C8_empty_retrieval (gen : String → String) (question : String)
    (retrieved : Except String (List Chunk)) (h : docs_of retrieved = []) :
    QueryEngine.query gen retrieved question true =
      { result := QueryReturn.with_sources (gen (create_prompt question "")) [] [],
        prompts := [create_prompt question ""] } ∧
    QueryEngine.query gen retrieved question false =
      { result := QueryReturn.bare (gen (create_prompt question "")),
        prompts := [create_prompt question ""] } := by
  constructor <;> simp [QueryEngine.query, retrieve_context, h]

/-- Witness for C8: an empty retrieval result with a constant generation
oracle. -/
theorem C8_empty_retrieval_witness :
    QueryEngine.query (fun _ => "I cannot tell from the context.")
        (Except.ok []) "What is asthma?" true =
      { result := QueryReturn.with_sources "I cannot tell from the context." [] [],
        prompts := [create_prompt "What is asthma?" ""] } ∧
    QueryEngine.query (fun _ => "I cannot tell from the context.")
        (Except.ok []) "What is asthma?" false =
      { result := QueryReturn.bare "I cannot tell from the context.",
        prompts := [create_prompt "What is asthma?" ""] } :=
  C8_empty_retrieval (fun _ => "I cannot tell from the context.")
    "What is asthma?" (Except.ok []) rfl

/-- C9: when sources are requested the answer carries exactly one source
identifier per retrieved chunk, taken from that chunk's metadata (with the
code's "Unknown" default for a chunk whose metadata lacks the key), in
retrieval order and without deduplication: the sources list is the pointwise
image of the retrieved chunk list, hence has the same length and order. -/
theorem C9_sources_per_chunk (gen : String → String) (ds : List Chunk)
    (question : String) :
    (QueryEngine.query gen (Except.ok ds) question true).result =
      QueryReturn.with_sources
        (gen (create_prompt question (retrieve_context (Except.ok ds)).2))
        (ds.map (fun d => d.metadata.source.getD "Unknown")) ds ∧
    (ds.map (fun d => d.metadata.source.getD "Unknown")).length = ds.length := by
  constructor
  · by_cases hds : ds = [] <;>
      simp [QueryEngine.query, retrieve_context, docs_of, hds]
  · simp

/-- C10: the result shape of `QueryEngine.query` depends on the
return_sources flag: without sources it is the bare answer string; with
sources it is the dict carrying the answer, the sources list, and — although
the ChatResponse schema only declares answer and sources — the retrieved
chunk documents themselves under context_docs. -/
theorem C10_result_shape (gen : String → String)
    (retrieved : Except String (List Chunk)) (question : String) :
    QueryEngine.query gen retrieved question false =
      { result := QueryReturn.bare
          (gen (create_prompt question (retrieve_context retrieved).2)),
        prompts := [create_prompt question (retrieve_context retrieved).2] } ∧
    QueryEngine.query gen retrieved question true =
      { result := QueryReturn.with_sources
          (gen (create_prompt question (retrieve_context retrieved).2))
          ((retrieve_context retrieved).1.map (fun d => d.metadata.source.getD "Unknown"))
          (retrieve_context retrieved).1,
        prompts := [create_prompt question (retrieve_context retrieved).2] } := by
  constructor <;> simp [QueryEngine.query]
